import Mathlib

/-!
Verification of the `nanomath` statistics module (`nanomath/nanomath.py`).

The Python module computes descriptive statistics for collections of
sequencing reads.  We give a shallow embedding: numeric values (read lengths,
quality scores, cutoffs) are modelled as rationals `ℚ`, except where the code
calls `math.log` or `numpy`'s standard deviation, which land in `ℝ`.
Fallible code (Python exceptions) is modelled with `Except String`.
`numpy` arrays become lists; a pandas dataframe becomes a structure of an
obligatory `lengths` column and optional further columns.
-/

namespace Nanomath

/-- `np.cumsum(l)`: the list of partial sums of `l` (no leading zero,
same length as `l`). -/
def cumsum : List ℚ → List ℚ
  | [] => []
  | x :: xs => x :: (cumsum xs).map (fun c => x + c)

/-- `get_N50(readlengths)`:
`readlengths[np.where(np.cumsum(readlengths) >= 0.5 * np.sum(readlengths))[0][0]]`.
The element of the input at the first index at which the cumulative sum
reaches half of the total.  `np.where(...)[0][0]` raises `IndexError` when no
index qualifies (only possible on an empty input); this is the `.error` case. -/
def get_N50 (readlengths : List ℚ) : Except String ℚ :=
  match (readlengths.zip (cumsum readlengths)).find?
      (fun p => decide (0.5 * readlengths.sum ≤ p.2)) with
  | some p => Except.ok p.1
  | none => Except.error "IndexError"

/-- `ave_qual(quals)`:
`-10 * log(sum([10**(q / -10) for q in quals]) / len(quals), 10)`.
`math.log(x, 10)` is `Real.logb 10 x`; `10**e` with a float exponent is
`Real.rpow`.  On an empty list Python divides by `len(quals) = 0`, raising
`ZeroDivisionError`; this is the `.error` case. -/
noncomputable def ave_qual (quals : List ℝ) : Except String ℝ :=
  if quals.length = 0 then Except.error "ZeroDivisionError"
  else Except.ok (-10 * Real.logb 10
    ((quals.map (fun q => (10 : ℝ) ^ (q / (-10 : ℝ)))).sum / quals.length))

/-- The average-quality formula in the specification's words: convert each
Phred score to an error probability `p = 10^(-q/10)`, average the
probabilities arithmetically, and convert back via `-10 * log10`. -/
noncomputable def specAveQual (quals : List ℝ) : ℝ :=
  -10 * Real.logb 10
    ((quals.map (fun q => (10 : ℝ) ^ (-q / (10 : ℝ)))).sum / quals.length)

/-- `np.mean(l)`: arithmetic mean. -/
def mean (l : List ℚ) : ℚ := l.sum / l.length

/-- `np.sort(l)` / `sorted(l)`: ascending stable sort. -/
def sortAsc (l : List ℚ) : List ℚ := List.insertionSort (· ≤ ·) l

/-- `np.median(l)`: middle element of the ascending sort for odd length,
mean of the two middle elements for even length.  (On an empty input numpy
produces `nan`; the `0` default is never reached in any statement below.) -/
def median (l : List ℚ) : ℚ :=
  if l.length % 2 = 1 then (sortAsc l).getD (l.length / 2) 0
  else ((sortAsc l).getD (l.length / 2 - 1) 0 + (sortAsc l).getD (l.length / 2) 0) / 2

/-- `median_qual(quals)`: `np.median(quals)`. -/
def median_qual (quals : List ℚ) : ℚ := median quals

/-- Population variance, the square of `np.std`: mean squared deviation
from the mean. -/
def pvariance (l : List ℚ) : ℚ := mean (l.map (fun x => (x - mean l) ^ 2))

/-- `np.std(l)`: population standard deviation (`ddof = 0`). -/
noncomputable def std (l : List ℚ) : ℝ := Real.sqrt (pvariance l)

/-- The filter threshold of `remove_length_outliers`:
`np.median(df[columnname]) + 3 * np.std(df[columnname])`. -/
noncomputable def outlierCutoff (vals : List ℚ) : ℝ := (median vals : ℝ) + 3 * std vals

open Classical in
/-- `remove_length_outliers(df, columnname)`:
`df[df[columnname] < np.median(df[columnname]) + 3 * np.std(df[columnname])]`.
The dataframe is a list of rows `α`; `columnname` selection is the
projection `col`.  Keeps, in order, the rows whose column value lies
strictly below the cutoff. -/
noncomputable def remove_length_outliers {α : Type} (df : List α) (col : α → ℚ) : List α :=
  df.filter (fun r => decide ((col r : ℝ) < outlierCutoff (df.map col)))

/-- `list(np.unique(l))`: the distinct values of `l` in ascending order. -/
def npUnique {α : Type} [LinearOrder α] [DecidableEq α] (l : List α) : List α :=
  (List.insertionSort (· ≤ ·) l).dedup

/-- Python's `round(x, p)`: round to `p` decimal digits.  (Python rounds
half-to-even on binary floats; no statement below touches a tie, so
round-half-up on `ℚ` agrees with the code everywhere it is used.) -/
def roundTo (p : ℕ) (x : ℚ) : ℚ := (round (x * 10 ^ p) : ℚ) / 10 ^ p

/-- `np.amax(l)`: greatest element (junk value `0` on `[]`, where numpy
raises; never reached below). -/
def amax : List ℚ → ℚ
  | [] => 0
  | x :: xs => xs.foldl max x

/-- The input dataframe: one row per read.  `lengths` is the obligatory
column; the remaining columns may be absent (`none`), which is exactly the
Python `"col" in datadf` test. -/
structure ReadTable where
  lengths : List ℚ
  runIDs : Option (List String) := none
  channelIDs : Option (List ℤ) := none
  percentIdentity : Option (List ℚ) := none
  aligned_lengths : Option (List ℚ) := none
  quals : Option (List ℚ) := none

/-- The dictionary `res` built by `calc_read_stats`: one field per possible
key, `none` meaning the key was not inserted. -/
structure StatRecord where
  runIDs : Option (List String) := none
  ActiveChannels : Option ℕ := none
  NumberOfReads : ℕ
  avePID : Option ℚ := none
  medPID : Option ℚ := none
  TotalAlignedBases : Option ℚ := none
  TotalBases : ℚ
  MedianLength : ℚ
  MeanLength : ℚ
  MaxLengthsAndQ : Option (List (ℚ × ℚ)) := none
  MaxQualsAndL : Option (List (ℚ × ℚ)) := none
  QualGroups : Option (List (ℕ × ℕ × ℚ)) := none

/-- The set of dictionary keys present in `res`, in insertion order, with
the Python key strings (`"ave-pID"`, `"med-pID"` are the fields
`avePID`, `medPID`). -/
def StatRecord.keys (r : StatRecord) : List String :=
  (if r.runIDs.isSome then ["runIDs"] else []) ++
  (if r.ActiveChannels.isSome then ["ActiveChannels"] else []) ++
  ["NumberOfReads"] ++
  (if r.avePID.isSome then ["ave-pID"] else []) ++
  (if r.medPID.isSome then ["med-pID"] else []) ++
  (if r.TotalAlignedBases.isSome then ["TotalAlignedBases"] else []) ++
  ["TotalBases", "MedianLength", "MeanLength"] ++
  (if r.MaxLengthsAndQ.isSome then ["MaxLengthsAndQ"] else []) ++
  (if r.MaxQualsAndL.isSome then ["MaxQualsAndL"] else []) ++
  (if r.QualGroups.isSome then ["QualGroups"] else [])

/-- Model of `np.argpartition(keyvals, -5)[-5:]` followed by indexing both
arrays with the selected indices: the five pairs with the largest key.
`argpartition` leaves the order among the selected elements (and the tie
handling) unspecified; we fix the admissible realization given by a stable
ascending sort on the key followed by keeping the last five entries. -/
def top5By (key : ℚ × ℚ → ℚ) (ps : List (ℚ × ℚ)) : List (ℚ × ℚ) :=
  (List.insertionSort (fun a b => key a ≤ key b) ps).drop (ps.length - 5)

/-- The quality-cutoff table:
`qualgroups = [q for q in range(5, 50, 5) if q < np.amax(qualities) + 5]`,
then for each `q` the pair of `np.sum(qualities > q)` and that count divided
by the number of reads.  Entry `(q, count, fraction)` models
`res["QualGroups"][q] = (count, fraction)` (dict keys in ascending order). -/
def qualGroups (qualities : List ℚ) (nreads : ℕ) : List (ℕ × ℕ × ℚ) :=
  ((List.range' 5 9 5).filter (fun q : ℕ => decide ((q : ℚ) < amax qualities + 5))).map
    (fun q : ℕ =>
      (q, qualities.countP (fun x => decide ((q : ℚ) < x)),
        (qualities.countP (fun x => decide ((q : ℚ) < x)) : ℚ) / nreads))

/-- `calc_read_stats(datadf)`: `None` when fewer than 10 reads, otherwise
the statistics dictionary.  Each optional key is inserted exactly when its
backing column is present.  The two top-5 lists are built from the pairs
`zip(readlengths[indices], qualities[indices])`, modelled by `top5By` over
`lengths.zip quals`. -/
def calc_read_stats (datadf : ReadTable) : Option StatRecord :=
  if datadf.lengths.length < 10 then none
  else some
    { runIDs := datadf.runIDs.map npUnique
      ActiveChannels := datadf.channelIDs.map (fun c => (npUnique c).length)
      NumberOfReads := datadf.lengths.length
      avePID := datadf.percentIdentity.map mean
      medPID := datadf.percentIdentity.map median
      TotalAlignedBases := datadf.aligned_lengths.map (fun l => l.sum)
      TotalBases := datadf.lengths.sum
      MedianLength := median datadf.lengths
      MeanLength := mean datadf.lengths
      MaxLengthsAndQ := datadf.quals.map
        (fun qs => top5By (fun p => p.1) (datadf.lengths.zip qs))
      MaxQualsAndL := datadf.quals.map
        (fun qs => top5By (fun p => p.2) (datadf.lengths.zip qs))
      QualGroups := datadf.quals.map
        (fun qs => qualGroups qs datadf.lengths.length) }

/-- One line written by `write_stats`, with the structure of the formatted
text kept abstract: each line is tagged by which `output.write` produced it
and carries the numeric payload of that format string.  Where the code
applies `round(..., 2)` before formatting, the payload is the rounded value. -/
inductive RLine where
  | header (title : String)
  | numberOfReads (n : ℕ)
  | totalBases (b : ℚ)
  | totalAlignedBases (b : ℚ)
  | medianLength (m : ℚ)
  | meanLength (m : ℚ)
  | n50 (v : ℚ)
  | blank
  | topLengthsHeader
  | topQualsHeader
  | topEntry (len q : ℚ)
  | qualGroupsHeader
  | qualGroupLine (q : ℕ) (count : ℕ) (pct : ℚ)
  | avePIDLine (x : ℚ)
  | medPIDLine (x : ℚ)
  | activeChannelsLine (n : ℕ)
  | runIDsLine (ids : List String)

/-- The observable effect of one `write_stats` call: which file (if any) was
opened for writing, whether the report went to standard output, the report
lines, and the lines written to standard error. -/
structure WriteResult where
  openedFile : Option String
  usedStdout : Bool
  body : List RLine
  stderr : List String

/-- `write_stats(datadf, outputfile)`: when `calc_read_stats` produced a
record (a non-empty dict, hence truthy), open the sink (`sys.stdout` for the
sentinel `"stdout"`, otherwise `open(outputfile, "wt")`) and write the
report; otherwise write the insufficient-data message to `sys.stderr` and
touch no output sink.  `sorted(..., reverse=True)` on the top-5 lists is a
descending stable sort; the quality-cutoff loop runs over the ascending keys
of `QualGroups`, the order `qualGroups` already produces. -/
def write_stats (datadf : ReadTable) (outputfile : String) : WriteResult :=
  match calc_read_stats datadf with
  | none =>
    { openedFile := none
      usedStdout := false
      body := []
      stderr := ["Number of reads too low for meaningful statistics.\n"] }
  | some stat =>
    { openedFile := if outputfile = "stdout" then none else some outputfile
      usedStdout := outputfile = "stdout"
      body :=
        [RLine.header "General summary",
         RLine.numberOfReads stat.NumberOfReads,
         RLine.totalBases stat.TotalBases] ++
        (match stat.TotalAlignedBases with
          | some b => [RLine.totalAlignedBases b]
          | none => []) ++
        [RLine.medianLength stat.MedianLength,
         RLine.meanLength (roundTo 2 stat.MeanLength),
         RLine.n50 (match get_N50 (sortAsc datadf.lengths) with
          | Except.ok v => v
          | Except.error _ => 0),
         RLine.blank] ++
        (match datadf.quals with
          | none => []
          | some _ =>
            [RLine.topLengthsHeader] ++
            ((List.insertionSort (fun a b : ℚ × ℚ => b.1 ≤ a.1)
                (stat.MaxLengthsAndQ.getD [])).map
              (fun p => RLine.topEntry p.1 (roundTo 2 p.2))) ++
            [RLine.blank, RLine.topQualsHeader] ++
            ((List.insertionSort (fun a b : ℚ × ℚ => b.2 ≤ a.2)
                (stat.MaxQualsAndL.getD [])).map
              (fun p => RLine.topEntry p.1 (roundTo 2 p.2))) ++
            [RLine.blank, RLine.qualGroupsHeader] ++
            ((stat.QualGroups.getD []).map
              (fun g => RLine.qualGroupLine g.1 g.2.1 (roundTo 2 (100 * g.2.2))))) ++
        (match stat.avePID, stat.medPID with
          | some a, some m => [RLine.avePIDLine a, RLine.medPIDLine m]
          | _, _ => []) ++
        (match stat.ActiveChannels with
          | some n => [RLine.activeChannelsLine n]
          | none => []) ++
        (match stat.runIDs with
          | some ids => [RLine.runIDsLine ids]
          | none => [])
      stderr := [] }

/-! ### Helper lemmas -/

lemma calc_read_stats_none_of_lt10 (t : ReadTable) (h : t.lengths.length < 10) :
    calc_read_stats t = none := by
  simp [calc_read_stats, h]

lemma cumsum_length (l : List ℚ) : (cumsum l).length = l.length := by
  induction l with
  | nil => rfl
  | cons x xs ih => simp [cumsum, ih]

lemma cumsum_getElem (l : List ℚ) (i : ℕ) (h : i < (cumsum l).length) :
    (cumsum l)[i] = (l.take (i + 1)).sum := by
  induction l generalizing i with
  | nil => simp [cumsum] at h
  | cons x xs ih =>
    cases i with
    | zero => simp [cumsum]
    | succ j =>
      have hj : j < (cumsum xs).length := by
        simpa [cumsum] using h
      simp [cumsum, ih j hj]

lemma find?_first {α : Type} (p : α → Bool) (xs : List α) (hex : ∃ x ∈ xs, p x) :
    ∃ i, ∃ h : i < xs.length, xs.find? p = some xs[i] ∧ p xs[i] = true ∧
      ∀ j, ∀ hj : j < xs.length, j < i → p xs[j] = false := by
  induction xs with
  | nil => simp at hex
  | cons x t ih =>
    by_cases hp : p x
    · refine ⟨0, by simp, ?_, by simpa using hp, ?_⟩
      · simp [List.find?_cons_of_pos _ hp]
      · intro j hj hj0
        omega
    · have hex2 : ∃ y ∈ t, p y := by
        rcases hex with ⟨y, hy, hpy⟩
        rcases List.mem_cons.mp hy with rfl | hyt
        · exact absurd hpy hp
        · exact ⟨y, hyt, hpy⟩
      rcases ih hex2 with ⟨i, hi, hfind, hpi, hfirst⟩
      refine ⟨i + 1, by simpa using Nat.succ_lt_succ hi, ?_, by simpa using hpi, ?_⟩
      · rw [List.find?_cons_of_neg _ (by simpa using hp)]
        simpa using hfind
      · intro j hj hji
        cases j with
        | zero => simpa using hp
        | succ k =>
          have := hfirst k (by omega) (by omega)
          simpa using this

/-! ### C3: behaviour of `ave_qual` on the empty input -/

/-- C3 (amended): on an input of length zero, `ave_qual` divides by
`len(quals) = 0` and raises `ZeroDivisionError`; it does not return any
value, defined or otherwise. -/
theorem ave_qual_empty_raises (quals : List ℝ) (h : quals.length = 0) :
    ave_qual quals = Except.error "ZeroDivisionError" := by
  simp [ave_qual, h]

/-- Witness for `ave_qual_empty_raises` at the empty list. -/
theorem ave_qual_empty_raises_witness :
    ([] : List ℝ).length = 0 ∧
      ave_qual ([] : List ℝ) = Except.error "ZeroDivisionError" :=
  ⟨rfl, ave_qual_empty_raises [] rfl⟩

/-- C3 counterexample: on the empty input the code ends in the
`ZeroDivisionError` crash case, not in a returned "undefined" value. -/
theorem ave_qual_empty_cx :
    ave_qual ([] : List ℝ) = Except.error "ZeroDivisionError" := by
  simp [ave_qual]

/-! ### C4: fewer than 10 reads yield no record -/

/-- C4: whenever the `lengths` column has fewer than 10 entries,
`calc_read_stats` returns `None` — no partial or zero-filled record —
whatever the other columns hold. -/
theorem calc_read_stats_lt10_none (t : ReadTable) (h : t.lengths.length < 10) :
    calc_read_stats t = none :=
  calc_read_stats_none_of_lt10 t h

/-- Witness for `calc_read_stats_lt10_none`: a three-read table with every
optional column present still yields no record. -/
theorem calc_read_stats_lt10_none_witness :
    ({ lengths := [1, 2, 3], runIDs := some ["a", "b"], channelIDs := some [1, 2, 2],
       percentIdentity := some [90, 91, 92], aligned_lengths := some [1, 2, 2],
       quals := some [7, 8, 9] } : ReadTable).lengths.length < 10 ∧
    calc_read_stats
      { lengths := [1, 2, 3], runIDs := some ["a", "b"], channelIDs := some [1, 2, 2],
        percentIdentity := some [90, 91, 92], aligned_lengths := some [1, 2, 2],
        quals := some [7, 8, 9] } = none :=
  ⟨by simp, calc_read_stats_lt10_none _ (by simp)⟩

/-! ### C10: `write_stats` on insufficient data touches no output sink -/

/-- C10: with fewer than 10 reads, `write_stats` opens no output file,
writes nothing to standard output (the report body is empty and the stdout
sink is unused), and emits exactly the insufficient-data message on
standard error. -/
theorem write_stats_insufficient_untouched (t : ReadTable) (f : String)
    (h : t.lengths.length < 10) :
    write_stats t f =
      { openedFile := none, usedStdout := false, body := [],
        stderr := ["Number of reads too low for meaningful statistics.\n"] } := by
  unfold write_stats
  rw [calc_read_stats_none_of_lt10 t h]

/-- Witness for `write_stats_insufficient_untouched` at a concrete
two-read table and a named output file. -/
theorem write_stats_insufficient_untouched_witness :
    ({ lengths := [5, 6], quals := some [9, 9] } : ReadTable).lengths.length < 10 ∧
    write_stats { lengths := [5, 6], quals := some [9, 9] } "report.txt" =
      { openedFile := none, usedStdout := false, body := [],
        stderr := ["Number of reads too low for meaningful statistics.\n"] } :=
  ⟨by simp, write_stats_insufficient_untouched _ "report.txt" (by simp)⟩

/-! ### C1: `get_N50` returns the first length whose cumulative sum reaches
half the total -/

/-- C1: on a non-empty ascending-sorted list of non-negative lengths with
positive total, `get_N50` succeeds and returns the element at the first
position whose cumulative sum reaches or exceeds half the total; the
cumulative sum through that position is at least half the total, the
cumulative sum strictly before it is strictly below half, every earlier
cumulative sum is strictly below half, and the returned value is an element
of the list, hence lies within its value range. -/
theorem get_N50_first_half_position (l : List ℚ) (hne : l ≠ [])
    (_hsort : l.Sorted (· ≤ ·)) (_hnn : ∀ x ∈ l, 0 ≤ x) (hpos : 0 < l.sum) :
    ∃ i, ∃ hi : i < l.length,
      get_N50 l = Except.ok l[i] ∧
      l.sum / 2 ≤ (l.take (i + 1)).sum ∧
      (l.take i).sum < l.sum / 2 ∧
      (∀ j, j < i → (l.take (j + 1)).sum < l.sum / 2) ∧
      l[i] ∈ l ∧
      (∀ m, (∀ x ∈ l, m ≤ x) → m ≤ l[i]) ∧
      (∀ M, (∀ x ∈ l, x ≤ M) → l[i] ≤ M) := by
  have hlz : (l.zip (cumsum l)).length = l.length := by
    simp [List.length_zip, cumsum_length]
  have hnl : 0 < l.length := List.length_pos.mpr hne
  -- the last entry of the zip satisfies the cumulative-sum condition
  have hex : ∃ x ∈ l.zip (cumsum l), (fun p : ℚ × ℚ => decide (0.5 * l.sum ≤ p.2)) x := by
    have hlast : l.length - 1 < (l.zip (cumsum l)).length := by omega
    refine ⟨(l.zip (cumsum l))[l.length - 1], List.getElem_mem _, ?_⟩
    have hc : l.length - 1 < (cumsum l).length := by rw [cumsum_length]; omega
    rw [List.getElem_zip]
    simp only [decide_eq_true_eq]
    rw [cumsum_getElem l (l.length - 1) hc]
    have : l.length - 1 + 1 = l.length := by omega
    rw [this, List.take_length]
    linarith
  obtain ⟨i, hi, hfind, hpi, hfirst⟩ :=
    find?_first (fun p : ℚ × ℚ => decide (0.5 * l.sum ≤ p.2)) (l.zip (cumsum l)) hex
  have hil : i < l.length := by omega
  have hic : i < (cumsum l).length := by rw [cumsum_length]; exact hil
  have hzi : (l.zip (cumsum l))[i] = (l[i], (cumsum l)[i]) := List.getElem_zip
  have hmem : l[i] ∈ l := List.getElem_mem hil
  refine ⟨i, hil, ?_, ?_, ?_, ?_, hmem, ?_, ?_⟩
  · unfold get_N50
    rw [hfind, hzi]
  · have := hpi
    rw [hzi] at this
    simp only [decide_eq_true_eq] at this
    rw [cumsum_getElem l i hic] at this
    linarith
  · cases i with
    | zero => simpa using by linarith
    | succ k =>
      have hk := hfirst k (by omega) (by omega)
      have hzk : (l.zip (cumsum l))[k] = (l[k], (cumsum l)[k]) := List.getElem_zip
      rw [hzk] at hk
      simp only [decide_eq_false_iff_not, decide_eq_true_eq] at hk
      push_neg at hk
      have hck : k < (cumsum l).length := by rw [cumsum_length]; omega
      rw [cumsum_getElem l k hck] at hk
      linarith
  · intro j hj
    have hjl : j < (l.zip (cumsum l)).length := by omega
    have hk := hfirst j hjl hj
    have hzj : (l.zip (cumsum l))[j] = (l[j], (cumsum l)[j]) := List.getElem_zip
    rw [hzj] at hk
    simp only [decide_eq_false_iff_not, decide_eq_true_eq] at hk
    push_neg at hk
    have hcj : j < (cumsum l).length := by rw [cumsum_length]; omega
    rw [cumsum_getElem l j hcj] at hk
    linarith
  · intro m hm
    exact hm _ hmem
  · intro M hM
    exact hM _ hmem

/-- Witness for `get_N50_first_half_position` at `[1,2,3,4,90]`
(the specification's scenario C: the single long read dominates). -/
theorem get_N50_first_half_position_witness :
    ∃ i, ∃ hi : i < ([1, 2, 3, 4, 90] : List ℚ).length,
      get_N50 [1, 2, 3, 4, 90] = Except.ok ([1, 2, 3, 4, 90] : List ℚ)[i] ∧
      ([1, 2, 3, 4, 90] : List ℚ).sum / 2 ≤ (([1, 2, 3, 4, 90] : List ℚ).take (i + 1)).sum ∧
      (([1, 2, 3, 4, 90] : List ℚ).take i).sum < ([1, 2, 3, 4, 90] : List ℚ).sum / 2 ∧
      (∀ j, j < i →
        (([1, 2, 3, 4, 90] : List ℚ).take (j + 1)).sum < ([1, 2, 3, 4, 90] : List ℚ).sum / 2) ∧
      ([1, 2, 3, 4, 90] : List ℚ)[i] ∈ ([1, 2, 3, 4, 90] : List ℚ) ∧
      (∀ m, (∀ x ∈ ([1, 2, 3, 4, 90] : List ℚ), m ≤ x) → m ≤ ([1, 2, 3, 4, 90] : List ℚ)[i]) ∧
      (∀ M, (∀ x ∈ ([1, 2, 3, 4, 90] : List ℚ), x ≤ M) → ([1, 2, 3, 4, 90] : List ℚ)[i] ≤ M) :=
  get_N50_first_half_position [1, 2, 3, 4, 90] (by simp)
    (by norm_num [List.sorted_cons])
    (by intro x hx; fin_cases hx <;> norm_num)
    (by norm_num)

/-! ### C2: `ave_qual` averages error probabilities in probability space -/

lemma logb_37e3_lower : (-287 / 200 : ℝ) < Real.logb 10 (37 / 1000) := by
  have h10 : (0 : ℝ) < Real.log 10 := Real.log_pos (by norm_num)
  have key : (10 : ℝ) ^ (-287 : ℤ) < (37 / 1000 : ℝ) ^ (200 : ℕ) := by
    rw [zpow_neg, show ((287 : ℤ)) = ((287 : ℕ) : ℤ) from rfl, zpow_natCast]
    norm_num
  have hlog := Real.log_lt_log (by positivity) key
  rw [Real.log_zpow, Real.log_pow] at hlog
  push_cast at hlog
  rw [Real.logb, lt_div_iff₀ h10]
  linarith

lemma logb_37e3_upper : Real.logb 10 (37 / 1000) < (-143 / 100 : ℝ) := by
  have h10 : (0 : ℝ) < Real.log 10 := Real.log_pos (by norm_num)
  have key : (37 / 1000 : ℝ) ^ (100 : ℕ) < (10 : ℝ) ^ (-143 : ℤ) := by
    rw [zpow_neg, show ((143 : ℤ)) = ((143 : ℕ) : ℤ) from rfl, zpow_natCast]
    norm_num
  have hlog := Real.log_lt_log (by positivity) key
  rw [Real.log_zpow, Real.log_pow] at hlog
  push_cast at hlog
  rw [Real.logb, div_lt_iff₀ h10]
  linarith

lemma ave_qual_ten_twenty_thirty :
    ave_qual [10, 20, 30] = Except.ok (-10 * Real.logb 10 (37 / 1000)) := by
  have e1 : (10 : ℝ) ^ ((10 : ℝ) / (-10 : ℝ)) = 1 / 10 := by
    rw [show ((10 : ℝ) / (-10 : ℝ)) = ((-1 : ℤ) : ℝ) by norm_num, Real.rpow_intCast]
    norm_num
  have e2 : (10 : ℝ) ^ ((20 : ℝ) / (-10 : ℝ)) = 1 / 100 := by
    rw [show ((20 : ℝ) / (-10 : ℝ)) = ((-2 : ℤ) : ℝ) by norm_num, Real.rpow_intCast]
    norm_num
  have e3 : (10 : ℝ) ^ ((30 : ℝ) / (-10 : ℝ)) = 1 / 1000 := by
    rw [show ((30 : ℝ) / (-10 : ℝ)) = ((-3 : ℤ) : ℝ) by norm_num, Real.rpow_intCast]
    norm_num
  simp only [ave_qual, List.length_cons, List.length_nil, List.map_cons, List.map_nil,
    List.sum_cons, List.sum_nil, e1, e2, e3]
  norm_num

/-- C2 (amended): for every non-empty list of quality scores `ave_qual`
returns `-10 * log10` of the arithmetic mean of the error probabilities
`10^(-q/10)` (the specification-side formula `specAveQual`); in particular
for `[10,20,30]` it returns `-10 * log10((10^-1 + 10^-2 + 10^-3)/3)
= -10 * log10(37/1000)`, which lies strictly between 14.3 and 14.35
(approximately 14.32, not 10.46). -/
theorem ave_qual_phred_mean :
    (∀ quals : List ℝ, quals ≠ [] → ave_qual quals = Except.ok (specAveQual quals)) ∧
    ave_qual [10, 20, 30] = Except.ok (-10 * Real.logb 10 (37 / 1000)) ∧
    (143 / 10 : ℝ) < -10 * Real.logb 10 (37 / 1000) ∧
    (-10 * Real.logb 10 (37 / 1000) : ℝ) < 287 / 20 := by
  refine ⟨?_, ave_qual_ten_twenty_thirty, ?_, ?_⟩
  · intro quals h
    have hlen : quals.length ≠ 0 := by simpa [List.length_eq_zero] using h
    have hfun : (fun q : ℝ => (10 : ℝ) ^ (q / (-10 : ℝ))) =
        (fun q : ℝ => (10 : ℝ) ^ (-q / (10 : ℝ))) := by
      funext q
      congr 1
      ring
    simp only [ave_qual, specAveQual, if_neg hlen, hfun]
  · linarith [logb_37e3_upper]
  · linarith [logb_37e3_lower]

/-- Witness for `ave_qual_phred_mean` at `[10,20,30]`. -/
theorem ave_qual_phred_mean_witness :
    ave_qual [10, 20, 30] = Except.ok (specAveQual [10, 20, 30]) :=
  ave_qual_phred_mean.1 [10, 20, 30] (by simp)

/-- C2 counterexample: the value of `ave_qual [10,20,30]` exceeds 14.3, so
it is not approximately 10.46 as the claim states (the claim's own formula
gives `-10 * log10(37/1000) ≈ 14.32`). -/
theorem ave_qual_value_not_ten_point_five :
    ave_qual [10, 20, 30] = Except.ok (-10 * Real.logb 10 (37 / 1000)) ∧
    (143 / 10 : ℝ) < -10 * Real.logb 10 (37 / 1000) :=
  ⟨ave_qual_ten_twenty_thirty, by linarith [logb_37e3_upper]⟩

/-! ### C6: the length-outlier filter -/

/-- C6: `remove_length_outliers` keeps exactly the rows whose column value
is strictly below `median + 3 * standard_deviation` of that column (a
one-sided filter), returns an order-preserving sublist of its input (the
input itself is untouched — the embedding is pure), and when no row is an
outlier it returns the input unchanged. -/
theorem remove_length_outliers_spec {α : Type} (df : List α) (col : α → ℚ) :
    (∀ r, r ∈ remove_length_outliers df col ↔
      r ∈ df ∧ (col r : ℝ) < (median (df.map col) : ℝ) + 3 * std (df.map col)) ∧
    (remove_length_outliers df col).Sublist df ∧
    ((∀ r ∈ df, (col r : ℝ) < (median (df.map col) : ℝ) + 3 * std (df.map col)) →
      remove_length_outliers df col = df) := by
  refine ⟨?_, ?_, ?_⟩
  · intro r
    simp [remove_length_outliers, outlierCutoff, List.mem_filter, decide_eq_true_eq]
  · exact List.filter_sublist _
  · intro h
    apply List.filter_eq_self.mpr
    intro a ha
    exact decide_eq_true (h a ha)

lemma sqrt_two_thirds_gt : (1 / 3 : ℝ) < Real.sqrt (2 / 3) := by
  rw [show (2 / 3 : ℝ) = ((2 / 3 : ℚ) : ℝ) by norm_num] at *
  refine (Real.lt_sqrt (by norm_num)).mpr ?_
  norm_num

/-- Witness for `remove_length_outliers_spec`: the column `[1,2,3]` has
median 2 and standard deviation `√(2/3) > 1/3`, so no value reaches the
cutoff and the filter keeps all rows. -/
theorem remove_length_outliers_spec_witness :
    remove_length_outliers [(1 : ℚ), 2, 3] id = [1, 2, 3] :=
  (remove_length_outliers_spec [(1 : ℚ), 2, 3] id).2.2 (by
    have hmed : median ([(1 : ℚ), 2, 3].map id) = 2 := by
      norm_num [median, sortAsc, List.insertionSort, List.orderedInsert]
    have hvar : pvariance ([(1 : ℚ), 2, 3].map id) = 2 / 3 := by
      norm_num [pvariance, mean]
    have hstd : (1 / 3 : ℝ) < std ([(1 : ℚ), 2, 3].map id) := by
      rw [std, hvar]
      have := sqrt_two_thirds_gt
      rw [show ((2 / 3 : ℚ) : ℝ) = (2 / 3 : ℝ) by norm_num]
      linarith
    intro r hr
    rw [hmed]
    fin_cases hr <;> simp only [id_eq] <;> push_cast <;> linarith [hstd])

/-! ### C5: record contents when `quals` is present -/

lemma ite_singleton_subset {c : Prop} [Decidable c] {s : String} {L : List String}
    (hs : s ∈ L) : (if c then [s] else []) ⊆ L := by
  split
  · simpa
  · simp

lemma keys_subset (r : StatRecord) :
    r.keys ⊆ ["runIDs", "ActiveChannels", "NumberOfReads", "ave-pID", "med-pID",
      "TotalAlignedBases", "TotalBases", "MedianLength", "MeanLength",
      "MaxLengthsAndQ", "MaxQualsAndL", "QualGroups"] := by
  unfold StatRecord.keys
  refine List.append_subset.mpr
    ⟨List.append_subset.mpr
      ⟨List.append_subset.mpr
        ⟨List.append_subset.mpr
          ⟨List.append_subset.mpr
            ⟨List.append_subset.mpr
              ⟨List.append_subset.mpr
                ⟨List.append_subset.mpr
                  ⟨List.append_subset.mpr
                    ⟨ite_singleton_subset ?_, ite_singleton_subset ?_⟩, ?_⟩,
                  ite_singleton_subset ?_⟩,
                ite_singleton_subset ?_⟩,
              ite_singleton_subset ?_⟩, ?_⟩,
          ite_singleton_subset ?_⟩,
        ite_singleton_subset ?_⟩,
      ite_singleton_subset ?_⟩ <;> decide

/-- C5 (amended): with at least 10 reads and the `quals` column present,
the record holds the top-5-by-length pairs, the top-5-by-quality pairs and
the quality-threshold table, but its keys all come from the twelve keys
`calc_read_stats` can ever insert — none of which is a mean quality or a
median quality (the code never calls `ave_qual` or `median_qual` here). -/
theorem calc_read_stats_quals_fields (t : ReadTable) (qs : List ℚ)
    (hq : t.quals = some qs) (hn : 10 ≤ t.lengths.length) :
    ∃ r, calc_read_stats t = some r ∧
      r.MaxLengthsAndQ.isSome = true ∧
      r.MaxQualsAndL.isSome = true ∧
      r.QualGroups.isSome = true ∧
      ∀ k ∈ r.keys, k ∈ ["runIDs", "ActiveChannels", "NumberOfReads", "ave-pID",
        "med-pID", "TotalAlignedBases", "TotalBases", "MedianLength", "MeanLength",
        "MaxLengthsAndQ", "MaxQualsAndL", "QualGroups"] := by
  unfold calc_read_stats
  rw [if_neg (by omega)]
  exact ⟨_, rfl, by simp [hq], by simp [hq], by simp [hq], fun k hk => keys_subset _ hk⟩

/-- Witness for `calc_read_stats_quals_fields` at a ten-read table with
quality values. -/
theorem calc_read_stats_quals_fields_witness :
    ∃ r, calc_read_stats
        { lengths := [1, 2, 3, 4, 5, 6, 7, 8, 9, 10],
          quals := some [9, 9, 9, 9, 9, 9, 9, 9, 9, 9] } = some r ∧
      r.MaxLengthsAndQ.isSome = true ∧
      r.MaxQualsAndL.isSome = true ∧
      r.QualGroups.isSome = true ∧
      ∀ k ∈ r.keys, k ∈ ["runIDs", "ActiveChannels", "NumberOfReads", "ave-pID",
        "med-pID", "TotalAlignedBases", "TotalBases", "MedianLength", "MeanLength",
        "MaxLengthsAndQ", "MaxQualsAndL", "QualGroups"] :=
  calc_read_stats_quals_fields _ [9, 9, 9, 9, 9, 9, 9, 9, 9, 9] rfl (by simp)

/-- C5 counterexample: at a ten-read table with only `lengths` and `quals`,
the complete key set of the record is exactly the seven keys below — there
is no mean-quality and no median-quality entry in the record. -/
theorem calc_read_stats_keys_no_mean_qual :
    (calc_read_stats
        { lengths := [1, 2, 3, 4, 5, 6, 7, 8, 9, 10],
          quals := some [8, 9, 9, 9, 9, 9, 9, 9, 9, 9] }).map StatRecord.keys =
      some ["NumberOfReads", "TotalBases", "MedianLength", "MeanLength",
        "MaxLengthsAndQ", "MaxQualsAndL", "QualGroups"] := by
  simp [calc_read_stats, StatRecord.keys]

/-! ### C7: the two top-5 selections -/

lemma top5By_spec (key : ℚ × ℚ → ℚ) (ps : List (ℚ × ℚ)) :
    ∃ rest, (top5By key ps).length = min 5 ps.length ∧
      ps.Perm (rest ++ top5By key ps) ∧
      ∀ b ∈ rest, ∀ a ∈ top5By key ps, key b ≤ key a := by
  haveI : IsTotal (ℚ × ℚ) (fun a b => key a ≤ key b) := ⟨fun a b => le_total _ _⟩
  haveI : IsTrans (ℚ × ℚ) (fun a b => key a ≤ key b) := ⟨fun _ _ _ hab hbc => le_trans hab hbc⟩
  have hperm : (List.insertionSort (fun a b => key a ≤ key b) ps).Perm ps :=
    List.perm_insertionSort _ ps
  have hsort : List.Sorted (fun a b => key a ≤ key b)
      (List.insertionSort (fun a b => key a ≤ key b) ps) :=
    List.sorted_insertionSort _ ps
  have hlen : (List.insertionSort (fun a b => key a ≤ key b) ps).length = ps.length :=
    hperm.length_eq
  refine ⟨(List.insertionSort (fun a b => key a ≤ key b) ps).take (ps.length - 5), ?_, ?_, ?_⟩
  · show ((List.insertionSort (fun a b => key a ≤ key b) ps).drop (ps.length - 5)).length =
      min 5 ps.length
    rw [List.length_drop, hlen]
    omega
  · show ps.Perm ((List.insertionSort (fun a b => key a ≤ key b) ps).take (ps.length - 5) ++
      (List.insertionSort (fun a b => key a ≤ key b) ps).drop (ps.length - 5))
    rw [List.take_append_drop]
    exact hperm.symm
  · intro b hb a ha
    have hsplit := hsort
    rw [← List.take_append_drop (ps.length - 5)
      (List.insertionSort (fun a b => key a ≤ key b) ps)] at hsplit
    exact (List.pairwise_append.mp hsplit).2.2 b hb a ha

/-- C7: with at least 10 reads, quality data present and one quality per
read, the two top-5 selections each return exactly `min 5 n` of the
`(length, quality)` pairs of the table; every selected pair's key is at
least every excluded pair's key (length for `MaxLengthsAndQ`, quality for
`MaxQualsAndL`), and both results are drawn from the same pair list
`lengths.zip quals` — the output is a `(length, quality)` pair whichever
key drove the selection.  Nothing is asserted about the order among the
selected pairs, matching `argpartition`'s unspecified tie handling. -/
theorem calc_read_stats_top5_spec (t : ReadTable) (qs : List ℚ)
    (hq : t.quals = some qs) (hlen : qs.length = t.lengths.length)
    (hn : 10 ≤ t.lengths.length) :
    ∃ r selL selQ restL restQ,
      calc_read_stats t = some r ∧
      r.MaxLengthsAndQ = some selL ∧
      r.MaxQualsAndL = some selQ ∧
      selL.length = min 5 t.lengths.length ∧
      selQ.length = min 5 t.lengths.length ∧
      (t.lengths.zip qs).Perm (restL ++ selL) ∧
      (∀ b ∈ restL, ∀ a ∈ selL, b.1 ≤ a.1) ∧
      (t.lengths.zip qs).Perm (restQ ++ selQ) ∧
      (∀ b ∈ restQ, ∀ a ∈ selQ, b.2 ≤ a.2) := by
  have hzlen : (t.lengths.zip qs).length = t.lengths.length := by
    simp [List.length_zip, hlen]
  obtain ⟨restL, hL1, hL2, hL3⟩ := top5By_spec (fun p => p.1) (t.lengths.zip qs)
  obtain ⟨restQ, hQ1, hQ2, hQ3⟩ := top5By_spec (fun p => p.2) (t.lengths.zip qs)
  have hcrs : ∃ r, calc_read_stats t = some r ∧
      r.MaxLengthsAndQ = some (top5By (fun p => p.1) (t.lengths.zip qs)) ∧
      r.MaxQualsAndL = some (top5By (fun p => p.2) (t.lengths.zip qs)) := by
    unfold calc_read_stats
    rw [if_neg (by omega)]
    exact ⟨_, rfl, by simp [hq], by simp [hq]⟩
  obtain ⟨r, hr, hrL, hrQ⟩ := hcrs
  exact ⟨r, _, _, restL, restQ, hr, hrL, hrQ, by rw [hL1, hzlen], by rw [hQ1, hzlen],
    hL2, hL3, hQ2, hQ3⟩

/-- Witness for `calc_read_stats_top5_spec` at a ten-read table. -/
theorem calc_read_stats_top5_spec_witness :
    ∃ r selL selQ restL restQ,
      calc_read_stats
        { lengths := [3, 1, 4, 1, 5, 9, 2, 6, 5, 3],
          quals := some [10, 11, 12, 13, 14, 15, 16, 17, 18, 19] } = some r ∧
      r.MaxLengthsAndQ = some selL ∧
      r.MaxQualsAndL = some selQ ∧
      selL.length = min 5 ([3, 1, 4, 1, 5, 9, 2, 6, 5, 3] : List ℚ).length ∧
      selQ.length = min 5 ([3, 1, 4, 1, 5, 9, 2, 6, 5, 3] : List ℚ).length ∧
      (([3, 1, 4, 1, 5, 9, 2, 6, 5, 3] : List ℚ).zip
        [(10 : ℚ), 11, 12, 13, 14, 15, 16, 17, 18, 19]).Perm (restL ++ selL) ∧
      (∀ b ∈ restL, ∀ a ∈ selL, b.1 ≤ a.1) ∧
      (([3, 1, 4, 1, 5, 9, 2, 6, 5, 3] : List ℚ).zip
        [(10 : ℚ), 11, 12, 13, 14, 15, 16, 17, 18, 19]).Perm (restQ ++ selQ) ∧
      (∀ b ∈ restQ, ∀ a ∈ selQ, b.2 ≤ a.2) :=
  calc_read_stats_top5_spec _ [10, 11, 12, 13, 14, 15, 16, 17, 18, 19] rfl (by simp) (by simp)

/-! ### C8: quality-threshold buckets -/

/-- C8 (amended): for every threshold entry of `QualGroups`, the count is
the number of reads whose quality strictly exceeds the threshold and the
stored fraction is that count divided by the total number of reads; counts
are monotonically non-increasing as the threshold grows; and the rendered
report line for an entry carries the percentage `100 * fraction` rounded to
two decimal places (`round(100 * fraction, 2)` in `write_stats`), not one. -/
theorem calc_read_stats_qualgroups_spec (t : ReadTable) (qs : List ℚ)
    (hq : t.quals = some qs) (hn : 10 ≤ t.lengths.length) :
    ∃ r gs, calc_read_stats t = some r ∧ r.QualGroups = some gs ∧
      (∀ e ∈ gs, e.2.1 = (qs.filter (fun x => decide ((e.1 : ℚ) < x))).length ∧
        e.2.2 = (e.2.1 : ℚ) / t.lengths.length) ∧
      (∀ e ∈ gs, ∀ e2 ∈ gs, e.1 ≤ e2.1 → e2.2.1 ≤ e.2.1) ∧
      (∀ f : String, ∀ e ∈ gs,
        RLine.qualGroupLine e.1 e.2.1 (roundTo 2 (100 * e.2.2)) ∈ (write_stats t f).body) := by
  obtain ⟨r, hr, hrG⟩ : ∃ r, calc_read_stats t = some r ∧
      r.QualGroups = some (qualGroups qs t.lengths.length) := by
    unfold calc_read_stats
    rw [if_neg (by omega)]
    exact ⟨_, rfl, by simp [hq]⟩
  refine ⟨r, qualGroups qs t.lengths.length, hr, hrG, ?_, ?_, ?_⟩
  · intro e he
    obtain ⟨q, hqm, rfl⟩ := List.mem_map.mp he
    exact ⟨List.countP_eq_length_filter _ _, rfl⟩
  · intro e he e2 he2 hle
    obtain ⟨q, hqm, rfl⟩ := List.mem_map.mp he
    obtain ⟨q2, hqm2, rfl⟩ := List.mem_map.mp he2
    simp only at hle ⊢
    refine List.countP_mono_left ?_
    intro x hx hgt
    simp only [decide_eq_true_eq] at hgt ⊢
    have : (q : ℚ) ≤ (q2 : ℚ) := by exact_mod_cast hle
    linarith
  · intro f e he
    have hmem : RLine.qualGroupLine e.1 e.2.1 (roundTo 2 (100 * e.2.2)) ∈
        (qualGroups qs t.lengths.length).map
          (fun g => RLine.qualGroupLine g.1 g.2.1 (roundTo 2 (100 * g.2.2))) :=
      List.mem_map_of_mem _ he
    simp only [write_stats, hr, hq, hrG, Option.getD_some, List.mem_append]
    tauto

/-- Witness for `calc_read_stats_qualgroups_spec` at a ten-read table. -/
theorem calc_read_stats_qualgroups_spec_witness :
    ∃ r gs, calc_read_stats
        { lengths := [1, 2, 3, 4, 5, 6, 7, 8, 9, 10],
          quals := some [3, 4, 5, 6, 7, 8, 9, 10, 11, 12] } = some r ∧
      r.QualGroups = some gs ∧
      (∀ e ∈ gs, e.2.1 = ([(3 : ℚ), 4, 5, 6, 7, 8, 9, 10, 11, 12].filter
          (fun x => decide ((e.1 : ℚ) < x))).length ∧
        e.2.2 = (e.2.1 : ℚ) / ([(1 : ℚ), 2, 3, 4, 5, 6, 7, 8, 9, 10] : List ℚ).length) ∧
      (∀ e ∈ gs, ∀ e2 ∈ gs, e.1 ≤ e2.1 → e2.2.1 ≤ e.2.1) ∧
      (∀ f : String, ∀ e ∈ gs,
        RLine.qualGroupLine e.1 e.2.1 (roundTo 2 (100 * e.2.2)) ∈
          (write_stats
            { lengths := [1, 2, 3, 4, 5, 6, 7, 8, 9, 10],
              quals := some [3, 4, 5, 6, 7, 8, 9, 10, 11, 12] } f).body) :=
  calc_read_stats_qualgroups_spec _ [3, 4, 5, 6, 7, 8, 9, 10, 11, 12] rfl (by simp)

/-- A twelve-read table whose fraction of reads above `Q5` is `1/12`, a
value with a non-terminating decimal expansion. -/
def tblDozen : ReadTable :=
  { lengths := [100, 100, 100, 100, 100, 100, 100, 100, 100, 100, 100, 100],
    quals := some [6, 1, 1, 1, 1, 1, 1, 1, 1, 1, 1, 1] }

/-- C8 counterexample: for `tblDozen` the `Q5` report line carries the
percentage `round(100 * 1/12, 2) = 8.33`, which has two decimal places; the
one-decimal rounding would be `8.3`, a strictly smaller, different value.
So percentages are rendered with two decimals, not one. -/
theorem qual_percent_two_decimals_cx :
    RLine.qualGroupLine 5 1 (833 / 100) ∈ (write_stats tblDozen "stdout").body ∧
    roundTo 2 (100 * ((1 : ℚ) / 12)) = 833 / 100 ∧
    roundTo 1 (100 * ((1 : ℚ) / 12)) = 83 / 10 ∧
    (83 / 10 : ℚ) < 833 / 100 := by
  have hg : qualGroups [6, 1, 1, 1, 1, 1, 1, 1, 1, 1, 1, 1] 12 =
      [(5, 1, (1 : ℚ) / 12), (10, 0, 0)] := by
    norm_num [qualGroups, amax, List.range', List.countP, List.countP.go]
  refine ⟨?_, by norm_num [roundTo, round_eq], by norm_num [roundTo, round_eq], by norm_num⟩
  simp only [write_stats, calc_read_stats, tblDozen]
  norm_num [hg, roundTo, round_eq, List.mem_append]

/-! ### C9: `write_stats` reports a single dataset -/

/-- C9 (amended): `write_stats` takes one dataset and reports it alone;
there is no multi-dataset composition in the code.  Quality-dependent lines
appear in a report exactly when that dataset's own table has the `quals`
column, independent of any other dataset: the quality-cutoff block header
is in the body iff `quals` is present. -/
theorem write_stats_quality_per_dataset (t : ReadTable) (f : String)
    (hn : 10 ≤ t.lengths.length) :
    RLine.qualGroupsHeader ∈ (write_stats t f).body ↔ t.quals.isSome = true := by
  rcases hq : t.quals with _ | qs <;>
    rcases hp : t.percentIdentity with _ | ps <;>
      rcases hc : t.channelIDs with _ | cs <;>
        rcases hrn : t.runIDs with _ | rs <;>
          rcases ha : t.aligned_lengths with _ | als <;>
            simp [write_stats, calc_read_stats,
              show ¬(t.lengths.length < 10) from by omega, hq, hp, hc, hrn, ha]

/-- Witness for `write_stats_quality_per_dataset` at a ten-read table with
quality data. -/
theorem write_stats_quality_per_dataset_witness :
    RLine.qualGroupsHeader ∈
        (write_stats
          { lengths := [1, 2, 3, 4, 5, 6, 7, 8, 9, 10],
            quals := some [9, 9, 9, 9, 9, 9, 9, 9, 9, 9] } "stdout").body ↔
      ({ lengths := [1, 2, 3, 4, 5, 6, 7, 8, 9, 10],
         quals := some [9, 9, 9, 9, 9, 9, 9, 9, 9, 9] } : ReadTable).quals.isSome = true :=
  write_stats_quality_per_dataset _ "stdout" (by simp)

/-- A ten-read dataset with quality values. -/
def tblWithQuals : ReadTable :=
  { lengths := [100, 100, 100, 100, 100, 100, 100, 100, 100, 100],
    quals := some [5, 5, 5, 5, 5, 5, 5, 5, 5, 6] }

/-- A ten-read dataset without quality values. -/
def tblNoQuals : ReadTable :=
  { lengths := [100, 100, 100, 100, 100, 100, 100, 100, 100, 100] }

/-- C9 counterexample: reporting the pair of datasets `tblWithQuals` (has
`quals`) and `tblNoQuals` (lacks `quals`) produces one report per dataset:
the first report contains the quality-cutoff block, even though the other
dataset of the batch lacks quality data, while the second report is exactly
the general summary with no quality-dependent line.  Quality lines are not
omitted from a shared batch report — no shared batch report exists. -/
theorem write_stats_no_batch_cx :
    RLine.qualGroupsHeader ∈ (write_stats tblWithQuals "stdout").body ∧
    (write_stats tblNoQuals "stdout").body =
      [RLine.header "General summary", RLine.numberOfReads 10, RLine.totalBases 1000,
       RLine.medianLength 100, RLine.meanLength 100, RLine.n50 100, RLine.blank] := by
  have hmed : median [(100 : ℚ), 100, 100, 100, 100, 100, 100, 100, 100, 100] = 100 := by
    norm_num [median, sortAsc, List.insertionSort, List.orderedInsert]
  have hmean : mean [(100 : ℚ), 100, 100, 100, 100, 100, 100, 100, 100, 100] = 100 := by
    norm_num [mean]
  have hn50 : get_N50 (sortAsc [(100 : ℚ), 100, 100, 100, 100, 100, 100, 100, 100, 100]) =
      Except.ok 100 := by
    norm_num [get_N50, sortAsc, List.insertionSort, List.orderedInsert, cumsum, List.find?]
  constructor
  · simp [write_stats, calc_read_stats, tblWithQuals]
  · simp [write_stats, calc_read_stats, tblNoQuals, hmed, hmean, hn50, roundTo, round_eq]
    norm_num

end Nanomath
